import Mathlib

/-!
# Verification of the ruuvi repository's frame codecs

Shallow embedding of the RuuviTag advertisement codecs from `tag/format5.go`,
`tag/format3.go`, `tag/format2_4.go` and `tag/parser.go`.

Modelling conventions:
* A Go `[]byte` is a `List ℕ` whose elements are below 256 (stated as a
  hypothesis where a theorem needs it); indexing `data[i]` on a
  length-checked slice becomes `List.getD data i 0`.
* Go machine integers become `ℕ`/`ℤ` with explicit wrapping (`% 2^w`) at the
  points where Go performs a narrowing integer conversion, which Go defines
  as wrapping.  Go's integer division truncates toward zero (`Int.tdiv`).
* Go `float64` values are modelled as exact rationals (`ℚ`); a `nil`
  pointer field becomes `Option.none`.  Floating-point rounding error and
  NaN/±Inf are outside this model, so every universally quantified theorem
  below is stated on a domain where the rational computation and the IEEE
  computation coincide (integer-valued fields, sentinel branches, dyadic
  scale factors, and single truncations/roundings applied directly to an
  input value); claims decided by sub-quantization floating-point effects
  are settled only on such domains.
* Go's conversion from a float to an integer type truncates toward zero and
  is implementation-defined when the truncated value overflows the target
  type; the model wraps in that case (`goUint16`/`goUint8` applied to the
  truncation), and theorems about those code paths carry range hypotheses
  that keep the conversion inside the defined domain.
-/

namespace Ruuvi

/-- Big-endian 16-bit read: `binary.BigEndian.Uint16(data[i:i+2])`. -/
def u16be (hi lo : ℕ) : ℕ := hi * 256 + lo

/-- Reinterpret an unsigned 16-bit value as Go `int16` (two's complement). -/
def toInt16 (n : ℕ) : ℤ := if n < 32768 then (n : ℤ) else (n : ℤ) - 65536

/-- Reinterpret a byte as Go `int8` (two's complement). -/
def int8val (b : ℕ) : ℤ := if b < 128 then (b : ℤ) else (b : ℤ) - 256

/-- Go float-to-integer conversion: truncation toward zero. -/
def trunc0 (q : ℚ) : ℤ := if 0 ≤ q then ⌊q⌋ else -⌊-q⌋

/-- Go conversion to `uint16`: wrap modulo 2^16. -/
def goUint16 (z : ℤ) : ℕ := (z % 65536).toNat

/-- Go conversion to `uint8`/`byte`: wrap modulo 2^8. -/
def goUint8 (z : ℤ) : ℕ := (z % 256).toNat

/-- `math.Round` for a nonnegative argument: round half away from zero. -/
def roundNN (q : ℚ) : ℤ := ⌊q + 1/2⌋

/-- High byte written by `binary.BigEndian.PutUint16`. -/
def byteHi (n : ℕ) : ℕ := (n / 256) % 256

/-- Low byte written by `binary.BigEndian.PutUint16`. -/
def byteLo (n : ℕ) : ℕ := n % 256

/-- Error outcomes of the per-format decoders (`tag/format*.go` return the
two `fmt.Errorf` cases: wrong byte count, wrong format tag). -/
inductive DecodeErr where
  | invalidLength : DecodeErr
  | wrongFormatTag : DecodeErr
deriving DecidableEq, Repr

/-- `tag.Format5Data` (format5.go): decoded Data Format 5 (RAWv2) reading. -/
structure Format5Data where
  temperature : Option ℚ
  humidity : Option ℚ
  pressure : Option ℤ
  accelerationX : Option ℚ
  accelerationY : Option ℚ
  accelerationZ : Option ℚ
  batteryVoltage : Option ℤ
  txPower : Option ℤ
  movementCounter : Option ℕ
  measurementSequence : Option ℕ
  macAddress : Option (List ℕ)
deriving DecidableEq, Repr

/-- `tag.DecodeFormat5` (format5.go): decode Data Format 5 from raw bytes. -/
def DecodeFormat5 (data : List ℕ) : Except DecodeErr Format5Data :=
  if data.length ≠ 24 then .error .invalidLength
  else if data.getD 0 0 ≠ 5 then .error .wrongFormatTag
  else
    let tempRaw : ℤ := toInt16 (u16be (data.getD 1 0) (data.getD 2 0))
    let humRaw : ℕ := u16be (data.getD 3 0) (data.getD 4 0)
    let pressRaw : ℕ := u16be (data.getD 5 0) (data.getD 6 0)
    let accXRaw : ℤ := toInt16 (u16be (data.getD 7 0) (data.getD 8 0))
    let accYRaw : ℤ := toInt16 (u16be (data.getD 9 0) (data.getD 10 0))
    let accZRaw : ℤ := toInt16 (u16be (data.getD 11 0) (data.getD 12 0))
    let powerInfo : ℕ := u16be (data.getD 13 0) (data.getD 14 0)
    let battRaw : ℕ := powerInfo / 32
    let txRaw : ℕ := powerInfo % 32
    let movementRaw : ℕ := data.getD 15 0
    let seqRaw : ℕ := u16be (data.getD 16 0) (data.getD 17 0)
    let mac : List ℕ := [data.getD 18 0, data.getD 19 0, data.getD 20 0,
      data.getD 21 0, data.getD 22 0, data.getD 23 0]
    .ok ⟨
      if tempRaw = -32768 then none else some ((tempRaw : ℚ) * (1/200)),
      if humRaw = 65535 then none else some ((humRaw : ℚ) * (1/400)),
      if pressRaw = 65535 then none else some ((pressRaw : ℤ) + 50000),
      if accXRaw = -32768 then none else some ((accXRaw : ℚ) / 1000),
      if accYRaw = -32768 then none else some ((accYRaw : ℚ) / 1000),
      if accZRaw = -32768 then none else some ((accZRaw : ℚ) / 1000),
      if battRaw = 2047 then none else some ((battRaw : ℤ) + 1600),
      if txRaw = 31 then none else some ((txRaw : ℤ) * 2 - 40),
      if movementRaw = 255 then none else some movementRaw,
      if seqRaw = 65535 then none else some seqRaw,
      if mac = List.replicate 6 255 then none else some mac⟩

/-- Temperature bytes written by `EncodeFormat5`: `int16(t / 0.005)` cast to
`uint16`, sentinel `0x8000` for an absent slot. -/
def encTemp5 (t : Option ℚ) : ℕ :=
  match t with
  | none => 32768
  | some q => goUint16 (trunc0 (q / (1/200)))

/-- Humidity bytes written by `EncodeFormat5`: `uint16(h / 0.0025)`,
sentinel `0xFFFF` for an absent slot. -/
def encHum5 (h : Option ℚ) : ℕ :=
  match h with
  | none => 65535
  | some q => goUint16 (trunc0 (q / (1/400)))

/-- Pressure bytes written by `EncodeFormat5`: `uint16(p - 50000)`,
sentinel `0xFFFF` for an absent slot. -/
def encPress5 (p : Option ℤ) : ℕ :=
  match p with
  | none => 65535
  | some v => goUint16 (v - 50000)

/-- Acceleration bytes written by `EncodeFormat5`: `int16(a * 1000)` cast to
`uint16`, sentinel `0x8000` for an absent slot. -/
def encAcc5 (a : Option ℚ) : ℕ :=
  match a with
  | none => 32768
  | some q => goUint16 (trunc0 (q * 1000))

/-- Battery bits of the format-5 power info: `(uint16(v-1600) & 0x7FF) << 5`,
`0x7FF << 5` for an absent slot. -/
def encBattBits (b : Option ℤ) : ℕ :=
  match b with
  | none => 2047 * 32
  | some v => (goUint16 (v - 1600) % 2048) * 32

/-- TX-power bits of the format-5 power info: `uint16((t+40)/2) & 0x1F`,
`0x1F` for an absent slot. -/
def encTxBits (t : Option ℤ) : ℕ :=
  match t with
  | none => 31
  | some v => goUint16 (Int.tdiv (v + 40) 2) % 32

/-- MAC bytes written by `EncodeFormat5`: the six stored bytes (zero-padded
or cut to six, mirroring `copy` into a zeroed buffer), all `0xFF` for an
absent slot. -/
def encMac5 (m : Option (List ℕ)) : List ℕ :=
  match m with
  | none => List.replicate 6 255
  | some l => (l ++ List.replicate 6 0).take 6

/-- `tag.EncodeFormat5` (format5.go): encode a reading into 24 raw bytes.
The Go function errors only on a `nil` pointer argument, which has no
counterpart for a Lean structure, so the result is the plain byte list. -/
def EncodeFormat5 (d : Format5Data) : List ℕ :=
  let tempB := encTemp5 d.temperature
  let humB := encHum5 d.humidity
  let pressB := encPress5 d.pressure
  let accXB := encAcc5 d.accelerationX
  let accYB := encAcc5 d.accelerationY
  let accZB := encAcc5 d.accelerationZ
  let powerInfo := encBattBits d.batteryVoltage + encTxBits d.txPower
  let mvB := match d.movementCounter with | none => 255 | some m => m
  let seqB := match d.measurementSequence with | none => 65535 | some s => s
  [5, byteHi tempB, byteLo tempB, byteHi humB, byteLo humB,
   byteHi pressB, byteLo pressB, byteHi accXB, byteLo accXB,
   byteHi accYB, byteLo accYB, byteHi accZB, byteLo accZB,
   byteHi powerInfo, byteLo powerInfo, mvB, byteHi seqB, byteLo seqB]
  ++ encMac5 d.macAddress

/-- `tag.Format3Data` (format3.go): decoded Data Format 3 (RAWv1) reading. -/
structure Format3Data where
  temperature : Option ℚ
  humidity : Option ℚ
  pressure : Option ℤ
  accelerationX : Option ℚ
  accelerationY : Option ℚ
  accelerationZ : Option ℚ
  batteryVoltage : Option ℤ
deriving DecidableEq, Repr

/-- `tag.DecodeFormat3` (format3.go): decode Data Format 3 from raw bytes. -/
def DecodeFormat3 (data : List ℕ) : Except DecodeErr Format3Data :=
  if data.length ≠ 14 then .error .invalidLength
  else if data.getD 0 0 ≠ 3 then .error .wrongFormatTag
  else
    let humRaw : ℕ := data.getD 1 0
    let tempSign : ℤ := int8val (data.getD 2 0)
    let tempFraction : ℕ := data.getD 3 0
    let pressRaw : ℕ := u16be (data.getD 4 0) (data.getD 5 0)
    let accXRaw : ℤ := toInt16 (u16be (data.getD 6 0) (data.getD 7 0))
    let accYRaw : ℤ := toInt16 (u16be (data.getD 8 0) (data.getD 9 0))
    let accZRaw : ℤ := toInt16 (u16be (data.getD 10 0) (data.getD 11 0))
    let battRaw : ℕ := u16be (data.getD 12 0) (data.getD 13 0)
    .ok ⟨
      if tempSign = 0 ∧ tempFraction = 0 then none
      else some (if tempSign < 0
        then -((data.getD 2 0 % 128 : ℕ) : ℚ) - (tempFraction : ℚ) * (1/100)
        else (tempSign : ℚ) + (tempFraction : ℚ) * (1/100)),
      if humRaw = 0 then none else some ((humRaw : ℚ) * (1/2)),
      if pressRaw = 0 then none else some ((pressRaw : ℤ) + 50000),
      some ((accXRaw : ℚ) / 1000),
      some ((accYRaw : ℚ) / 1000),
      some ((accZRaw : ℚ) / 1000),
      if battRaw = 0 then none else some (battRaw : ℤ)⟩

/-- Humidity byte of `EncodeFormat3`/`EncodeFormat2`/`EncodeFormat4`:
`uint8(h / 0.5)`, sentinel 0 for an absent slot. -/
def encHumByte (h : Option ℚ) : ℕ :=
  match h with
  | none => 0
  | some q => goUint8 (trunc0 (q / (1/2)))

/-- Temperature byte pair of `EncodeFormat3`: sign-magnitude whole degrees
in byte 2 (bit `0x80` = negative) and `math.Round`ed centidegree fraction in
byte 3; `(0, 0)` for an absent slot. -/
def encTemp3 (t : Option ℚ) : ℕ × ℕ :=
  match t with
  | none => (0, 0)
  | some q =>
    if q < 0 then
      let whole : ℤ := trunc0 (-q)
      let frac : ℤ := roundNN ((-q - (whole : ℚ)) * 100)
      ((whole % 128).toNat + 128, frac.toNat)
    else
      let whole : ℤ := trunc0 q
      let frac : ℤ := roundNN ((q - (whole : ℚ)) * 100)
      (goUint8 whole, frac.toNat)

/-- Pressure bytes of `EncodeFormat3`/`EncodeFormat2`/`EncodeFormat4`:
`uint16(p - 50000)`, sentinel 0 for an absent slot. -/
def encPress0 (p : Option ℤ) : ℕ :=
  match p with
  | none => 0
  | some v => goUint16 (v - 50000)

/-- Acceleration bytes of `EncodeFormat3`: `int16(a * 1000)` cast to
`uint16`, 0 for an absent slot. -/
def encAcc3 (a : Option ℚ) : ℕ :=
  match a with
  | none => 0
  | some q => goUint16 (trunc0 (q * 1000))

/-- `tag.EncodeFormat3` (format3.go): encode a reading into 14 raw bytes. -/
def EncodeFormat3 (d : Format3Data) : List ℕ :=
  let humB := encHumByte d.humidity
  let tempB := encTemp3 d.temperature
  let pressB := encPress0 d.pressure
  let accXB := encAcc3 d.accelerationX
  let accYB := encAcc3 d.accelerationY
  let accZB := encAcc3 d.accelerationZ
  let battB := match d.batteryVoltage with | none => 0 | some v => goUint16 v
  [3, humB, tempB.1, tempB.2, byteHi pressB, byteLo pressB,
   byteHi accXB, byteLo accXB, byteHi accYB, byteLo accYB,
   byteHi accZB, byteLo accZB, byteHi battB, byteLo battB]

/-- `tag.Format2Data` (format2_4.go): decoded Data Format 2 reading. -/
structure Format2Data where
  temperature : Option ℚ
  humidity : Option ℚ
  pressure : Option ℤ
deriving DecidableEq, Repr

/-- `tag.Format4Data` (format2_4.go): decoded Data Format 4 reading. -/
structure Format4Data where
  temperature : Option ℚ
  humidity : Option ℚ
  pressure : Option ℤ
  tagID : Option ℕ
deriving DecidableEq, Repr

/-- Whole-degree sign-magnitude temperature of formats 2 and 4: absent iff
byte 2 is zero, negative iff its `0x80` bit is set, magnitude = low 7 bits. -/
def decTemp24 (b2 : ℕ) : Option ℚ :=
  let tempSign : ℤ := int8val b2
  if tempSign = 0 then none
  else some (if tempSign < 0 then -((b2 % 128 : ℕ) : ℚ) else (tempSign : ℚ))

/-- `tag.DecodeFormat2` (format2_4.go): decode Data Format 2 from raw bytes. -/
def DecodeFormat2 (data : List ℕ) : Except DecodeErr Format2Data :=
  if data.length ≠ 6 then .error .invalidLength
  else if data.getD 0 0 ≠ 2 then .error .wrongFormatTag
  else
    let humRaw : ℕ := data.getD 1 0
    let pressRaw : ℕ := u16be (data.getD 4 0) (data.getD 5 0)
    .ok ⟨
      decTemp24 (data.getD 2 0),
      if humRaw = 0 then none else some ((humRaw : ℚ) * (1/2)),
      if pressRaw = 0 then none else some ((pressRaw : ℤ) + 50000)⟩

/-- `tag.DecodeFormat4` (format2_4.go): decode Data Format 4 from raw bytes. -/
def DecodeFormat4 (data : List ℕ) : Except DecodeErr Format4Data :=
  if data.length ≠ 7 then .error .invalidLength
  else if data.getD 0 0 ≠ 4 then .error .wrongFormatTag
  else
    let humRaw : ℕ := data.getD 1 0
    let pressRaw : ℕ := u16be (data.getD 4 0) (data.getD 5 0)
    let tagIDRaw : ℕ := data.getD 6 0
    .ok ⟨
      decTemp24 (data.getD 2 0),
      if humRaw = 0 then none else some ((humRaw : ℚ) * (1/2)),
      if pressRaw = 0 then none else some ((pressRaw : ℤ) + 50000),
      if tagIDRaw = 0 then none else some tagIDRaw⟩

/-- Temperature byte pair of `EncodeFormat2`/`EncodeFormat4`: whole degrees
only, sign-magnitude byte 2, byte 3 always zero; `(0, 0)` for an absent
slot. -/
def encTemp24 (t : Option ℚ) : ℕ × ℕ :=
  match t with
  | none => (0, 0)
  | some q =>
    if q < 0 then ((trunc0 (-q) % 128).toNat + 128, 0)
    else (goUint8 (trunc0 q), 0)

/-- `tag.EncodeFormat2` (format2_4.go): encode a reading into 6 raw bytes. -/
def EncodeFormat2 (d : Format2Data) : List ℕ :=
  let humB := encHumByte d.humidity
  let tempB := encTemp24 d.temperature
  let pressB := encPress0 d.pressure
  [2, humB, tempB.1, tempB.2, byteHi pressB, byteLo pressB]

/-- `tag.EncodeFormat4` (format2_4.go): encode a reading into 7 raw bytes. -/
def EncodeFormat4 (d : Format4Data) : List ℕ :=
  let humB := encHumByte d.humidity
  let tempB := encTemp24 d.temperature
  let pressB := encPress0 d.pressure
  let tagB := match d.tagID with | none => 0 | some v => v
  [4, humB, tempB.1, tempB.2, byteHi pressB, byteLo pressB, tagB]

/-- Error outcomes of `tag.ParseManufacturerData`/`tag.parseFormat5`
(parser.go): empty input, non-format-5 tag, wrong byte count. -/
inductive ParseErr where
  | emptyData : ParseErr
  | unsupportedFormat : ParseErr
  | invalidLength : ParseErr
deriving DecidableEq, Repr

/-- `tag.Measurement` (parser.go): the parser package's own reading record
(`Pressure` is `uint32`, `BatteryVoltage` is `uint16`, `TxPower` is `int8`). -/
structure Measurement where
  temperature : Option ℚ
  humidity : Option ℚ
  pressure : Option ℕ
  accelerationX : Option ℚ
  accelerationY : Option ℚ
  accelerationZ : Option ℚ
  batteryVoltage : Option ℕ
  txPower : Option ℤ
  movementCounter : Option ℕ
  measurementSequence : Option ℕ
  macAddress : Option (List ℕ)
deriving DecidableEq, Repr

/-- `tag.parseFormat5` (parser.go): the package's second format-5 decoder.
It checks the length but not the tag byte.  `int8(txPowerRaw*2 - 40)` is
`uint16` arithmetic followed by a narrowing conversion, so it is modelled
with the corresponding wraps. -/
def parseFormat5 (data : List ℕ) : Except ParseErr Measurement :=
  if data.length ≠ 24 then .error .invalidLength
  else
    let tempRaw : ℤ := toInt16 (u16be (data.getD 1 0) (data.getD 2 0))
    let humRaw : ℕ := u16be (data.getD 3 0) (data.getD 4 0)
    let pressRaw : ℕ := u16be (data.getD 5 0) (data.getD 6 0)
    let accXRaw : ℤ := toInt16 (u16be (data.getD 7 0) (data.getD 8 0))
    let accYRaw : ℤ := toInt16 (u16be (data.getD 9 0) (data.getD 10 0))
    let accZRaw : ℤ := toInt16 (u16be (data.getD 11 0) (data.getD 12 0))
    let powerInfo : ℕ := u16be (data.getD 13 0) (data.getD 14 0)
    let batteryRaw : ℕ := (powerInfo / 32) % 2048
    let txPowerRaw : ℕ := powerInfo % 32
    let movementRaw : ℕ := data.getD 15 0
    let seqRaw : ℕ := u16be (data.getD 16 0) (data.getD 17 0)
    let mac : List ℕ := [data.getD 18 0, data.getD 19 0, data.getD 20 0,
      data.getD 21 0, data.getD 22 0, data.getD 23 0]
    .ok ⟨
      if tempRaw = -32768 then none else some ((tempRaw : ℚ) * (1/200)),
      if humRaw = 65535 then none else some ((humRaw : ℚ) * (1/400)),
      if pressRaw = 65535 then none else some (pressRaw + 50000),
      if accXRaw = -32768 then none else some ((accXRaw : ℚ) / 1000),
      if accYRaw = -32768 then none else some ((accYRaw : ℚ) / 1000),
      if accZRaw = -32768 then none else some ((accZRaw : ℚ) / 1000),
      if batteryRaw = 2047 then none else some ((batteryRaw + 1600) % 65536),
      if txPowerRaw = 31 then none
        else some (int8val ((txPowerRaw * 2 + 65496) % 65536 % 256)),
      if movementRaw = 255 then none else some movementRaw,
      if seqRaw = 65535 then none else some seqRaw,
      if mac = List.replicate 6 255 then none else some mac⟩

/-- `tag.ParseManufacturerData` (parser.go): length/emptiness check,
dispatch on the format byte, only format 5 supported. -/
def ParseManufacturerData (data : List ℕ) : Except ParseErr Measurement :=
  if data.length = 0 then .error .emptyData
  else if data.getD 0 0 = 5 then parseFormat5 data
  else .error .unsupportedFormat

/-- Modelled from the spec: `EncodeFormat5ManufacturerData` is declared only
by its tests (`tag/format5_test.go`), not under `src/`.  Per spec §4.2 the
manufacturer-envelope helper prepends the fixed 2-byte little-endian
identifier 0x9904 (bytes `0x99 0x04`) to the 24-byte `EncodeFormat5`
payload, a 26-byte envelope in total. -/
def EncodeFormat5ManufacturerData (d : Format5Data) : List ℕ :=
  153 :: 4 :: EncodeFormat5 d

/-- Modelled from the spec: the stripping direction of the
manufacturer-envelope helper has no implementation under `src/`.  Per spec
§4.2 it removes exactly the 2-byte identifier and validates nothing about
the identifier value beyond the 26-byte envelope length. -/
def stripManufacturerData (data : List ℕ) : Except DecodeErr (List ℕ) :=
  if data.length = 26 then .ok (data.drop 2) else .error .invalidLength

/-! ## Shared concrete frames -/

/-- Spec literal scenario 2: the all-sentinel Format 5 frame
`058000FFFFFFFF800080008000FFFFFFFFFFFFFFFFFFFFFF`. -/
def allSentinelFrame5 : List ℕ :=
  [5, 128, 0, 255, 255, 255, 255, 128, 0, 128, 0, 128, 0,
   255, 255, 255, 255, 255, 255, 255, 255, 255, 255, 255]

/-- Spec literal scenario 1: the full valid Format 5 frame
`0512FC5394C37C0004FFFC040CAC364200CDCBB8334C884F`. -/
def fullFrame5 : List ℕ :=
  [5, 18, 252, 83, 148, 195, 124, 0, 4, 255, 252, 4, 12,
   172, 54, 66, 0, 205, 203, 184, 51, 76, 136, 79]

/-! ## Claim theorems -/

/-- Claim C5: for every supported codec (formats 2, 3, 4, 5) and every
input, decoding a frame of the wrong length returns the invalid-length
error; decoding a frame of the correct length whose tag byte differs from
the codec's tag returns the wrong-format-tag error; decoding succeeds in
all other cases. -/
theorem claim5_error_handling :
    (∀ data : List ℕ,
      (data.length ≠ 6 → DecodeFormat2 data = .error .invalidLength) ∧
      (data.length = 6 → data.getD 0 0 ≠ 2 →
        DecodeFormat2 data = .error .wrongFormatTag) ∧
      (data.length = 6 → data.getD 0 0 = 2 →
        ∃ r, DecodeFormat2 data = .ok r)) ∧
    (∀ data : List ℕ,
      (data.length ≠ 14 → DecodeFormat3 data = .error .invalidLength) ∧
      (data.length = 14 → data.getD 0 0 ≠ 3 →
        DecodeFormat3 data = .error .wrongFormatTag) ∧
      (data.length = 14 → data.getD 0 0 = 3 →
        ∃ r, DecodeFormat3 data = .ok r)) ∧
    (∀ data : List ℕ,
      (data.length ≠ 7 → DecodeFormat4 data = .error .invalidLength) ∧
      (data.length = 7 → data.getD 0 0 ≠ 4 →
        DecodeFormat4 data = .error .wrongFormatTag) ∧
      (data.length = 7 → data.getD 0 0 = 4 →
        ∃ r, DecodeFormat4 data = .ok r)) ∧
    (∀ data : List ℕ,
      (data.length ≠ 24 → DecodeFormat5 data = .error .invalidLength) ∧
      (data.length = 24 → data.getD 0 0 ≠ 5 →
        DecodeFormat5 data = .error .wrongFormatTag) ∧
      (data.length = 24 → data.getD 0 0 = 5 →
        ∃ r, DecodeFormat5 data = .ok r)) := by
  refine ⟨fun data => ⟨?_, ?_, ?_⟩, fun data => ⟨?_, ?_, ?_⟩,
    fun data => ⟨?_, ?_, ?_⟩, fun data => ⟨?_, ?_, ?_⟩⟩ <;>
    intros h
  · rw [DecodeFormat2, if_pos h]
  · intro htag; rw [DecodeFormat2, if_neg (by omega), if_pos htag]
  · intro htag
    exact ⟨_, by rw [DecodeFormat2, if_neg (by omega), if_neg (by omega)]⟩
  · rw [DecodeFormat3, if_pos h]
  · intro htag; rw [DecodeFormat3, if_neg (by omega), if_pos htag]
  · intro htag
    exact ⟨_, by rw [DecodeFormat3, if_neg (by omega), if_neg (by omega)]⟩
  · rw [DecodeFormat4, if_pos h]
  · intro htag; rw [DecodeFormat4, if_neg (by omega), if_pos htag]
  · intro htag
    exact ⟨_, by rw [DecodeFormat4, if_neg (by omega), if_neg (by omega)]⟩
  · rw [DecodeFormat5, if_pos h]
  · intro htag; rw [DecodeFormat5, if_neg (by omega), if_pos htag]
  · intro htag
    exact ⟨_, by rw [DecodeFormat5, if_neg (by omega), if_neg (by omega)]⟩

/-- Witness for C5: the all-sentinel frame has length 24 and tag 5, and
`DecodeFormat5` succeeds on it. -/
theorem claim5_witness :
    ∃ r, DecodeFormat5 allSentinelFrame5 = .ok r :=
  (claim5_error_handling.2.2.2 allSentinelFrame5).2.2 (by decide) (by decide)

/-- Claim C2: every 24-byte frame with tag byte 5 decodes successfully, and
each slot is absent exactly when its raw sub-field equals its sentinel
(temperature −32768, humidity 65535, pressure 65535, accelerations −32768,
battery 0x7FF, tx 0x1F, movement 255, sequence 65535, all-0xFF device id),
otherwise present with the value `raw * scale + offset` of the layout
table; in particular the all-sentinel frame decodes with every slot
absent. -/
theorem claim2_decode5_table :
    (∀ data : List ℕ, data.length = 24 → data.getD 0 0 = 5 →
      ∃ r : Format5Data, DecodeFormat5 data = .ok r ∧
        r.temperature = (if toInt16 (u16be (data.getD 1 0) (data.getD 2 0)) = -32768
          then none
          else some ((toInt16 (u16be (data.getD 1 0) (data.getD 2 0)) : ℚ) * (1/200))) ∧
        r.humidity = (if u16be (data.getD 3 0) (data.getD 4 0) = 65535 then none
          else some ((u16be (data.getD 3 0) (data.getD 4 0) : ℚ) * (1/400))) ∧
        r.pressure = (if u16be (data.getD 5 0) (data.getD 6 0) = 65535 then none
          else some ((u16be (data.getD 5 0) (data.getD 6 0) : ℤ) + 50000)) ∧
        r.accelerationX = (if toInt16 (u16be (data.getD 7 0) (data.getD 8 0)) = -32768
          then none
          else some ((toInt16 (u16be (data.getD 7 0) (data.getD 8 0)) : ℚ) / 1000)) ∧
        r.accelerationY = (if toInt16 (u16be (data.getD 9 0) (data.getD 10 0)) = -32768
          then none
          else some ((toInt16 (u16be (data.getD 9 0) (data.getD 10 0)) : ℚ) / 1000)) ∧
        r.accelerationZ = (if toInt16 (u16be (data.getD 11 0) (data.getD 12 0)) = -32768
          then none
          else some ((toInt16 (u16be (data.getD 11 0) (data.getD 12 0)) : ℚ) / 1000)) ∧
        r.batteryVoltage = (if u16be (data.getD 13 0) (data.getD 14 0) / 32 = 2047
          then none
          else some ((u16be (data.getD 13 0) (data.getD 14 0) / 32 : ℤ) + 1600)) ∧
        r.txPower = (if u16be (data.getD 13 0) (data.getD 14 0) % 32 = 31 then none
          else some ((u16be (data.getD 13 0) (data.getD 14 0) % 32 : ℤ) * 2 - 40)) ∧
        r.movementCounter = (if data.getD 15 0 = 255 then none
          else some (data.getD 15 0)) ∧
        r.measurementSequence = (if u16be (data.getD 16 0) (data.getD 17 0) = 65535
          then none
          else some (u16be (data.getD 16 0) (data.getD 17 0))) ∧
        r.macAddress = (if [data.getD 18 0, data.getD 19 0, data.getD 20 0,
            data.getD 21 0, data.getD 22 0, data.getD 23 0] = List.replicate 6 255
          then none
          else some [data.getD 18 0, data.getD 19 0, data.getD 20 0,
            data.getD 21 0, data.getD 22 0, data.getD 23 0])) ∧
    DecodeFormat5 allSentinelFrame5 =
      .ok ⟨none, none, none, none, none, none, none, none, none, none, none⟩ := by
  refine ⟨fun data h24 htag => ?_, rfl⟩
  rw [DecodeFormat5, if_neg (by omega), if_neg (by omega)]
  exact ⟨_, rfl, rfl, rfl, rfl, rfl, rfl, rfl, rfl, rfl, rfl, rfl, rfl⟩

/-- Witness for C2: the table sentence instantiated on the all-sentinel
frame, whose length and tag hypotheses are discharged by computation. -/
theorem claim2_witness :
    ∃ r : Format5Data, DecodeFormat5 allSentinelFrame5 = .ok r ∧
      r.temperature = (if toInt16 (u16be (allSentinelFrame5.getD 1 0) (allSentinelFrame5.getD 2 0)) = -32768
        then none
        else some ((toInt16 (u16be (allSentinelFrame5.getD 1 0) (allSentinelFrame5.getD 2 0)) : ℚ) * (1/200))) ∧
      r.humidity = (if u16be (allSentinelFrame5.getD 3 0) (allSentinelFrame5.getD 4 0) = 65535 then none
        else some ((u16be (allSentinelFrame5.getD 3 0) (allSentinelFrame5.getD 4 0) : ℚ) * (1/400))) ∧
      r.pressure = (if u16be (allSentinelFrame5.getD 5 0) (allSentinelFrame5.getD 6 0) = 65535 then none
        else some ((u16be (allSentinelFrame5.getD 5 0) (allSentinelFrame5.getD 6 0) : ℤ) + 50000)) ∧
      r.accelerationX = (if toInt16 (u16be (allSentinelFrame5.getD 7 0) (allSentinelFrame5.getD 8 0)) = -32768
        then none
        else some ((toInt16 (u16be (allSentinelFrame5.getD 7 0) (allSentinelFrame5.getD 8 0)) : ℚ) / 1000)) ∧
      r.accelerationY = (if toInt16 (u16be (allSentinelFrame5.getD 9 0) (allSentinelFrame5.getD 10 0)) = -32768
        then none
        else some ((toInt16 (u16be (allSentinelFrame5.getD 9 0) (allSentinelFrame5.getD 10 0)) : ℚ) / 1000)) ∧
      r.accelerationZ = (if toInt16 (u16be (allSentinelFrame5.getD 11 0) (allSentinelFrame5.getD 12 0)) = -32768
        then none
        else some ((toInt16 (u16be (allSentinelFrame5.getD 11 0) (allSentinelFrame5.getD 12 0)) : ℚ) / 1000)) ∧
      r.batteryVoltage = (if u16be (allSentinelFrame5.getD 13 0) (allSentinelFrame5.getD 14 0) / 32 = 2047
        then none
        else some ((u16be (allSentinelFrame5.getD 13 0) (allSentinelFrame5.getD 14 0) / 32 : ℤ) + 1600)) ∧
      r.txPower = (if u16be (allSentinelFrame5.getD 13 0) (allSentinelFrame5.getD 14 0) % 32 = 31 then none
        else some ((u16be (allSentinelFrame5.getD 13 0) (allSentinelFrame5.getD 14 0) % 32 : ℤ) * 2 - 40)) ∧
      r.movementCounter = (if allSentinelFrame5.getD 15 0 = 255 then none
        else some (allSentinelFrame5.getD 15 0)) ∧
      r.measurementSequence = (if u16be (allSentinelFrame5.getD 16 0) (allSentinelFrame5.getD 17 0) = 65535
        then none
        else some (u16be (allSentinelFrame5.getD 16 0) (allSentinelFrame5.getD 17 0))) ∧
      r.macAddress = (if [allSentinelFrame5.getD 18 0, allSentinelFrame5.getD 19 0,
          allSentinelFrame5.getD 20 0, allSentinelFrame5.getD 21 0,
          allSentinelFrame5.getD 22 0, allSentinelFrame5.getD 23 0] = List.replicate 6 255
        then none
        else some [allSentinelFrame5.getD 18 0, allSentinelFrame5.getD 19 0,
          allSentinelFrame5.getD 20 0, allSentinelFrame5.getD 21 0,
          allSentinelFrame5.getD 22 0, allSentinelFrame5.getD 23 0]) :=
  claim2_decode5_table.1 allSentinelFrame5 (by decide) (by decide)

/-- Claim C4: on every 14-byte frame with tag 3 (and byte values below
256), the decoded temperature is absent iff bytes 2 and 3 are both zero,
and otherwise equals `s * (m + f/100)` where `s` is −1 exactly when bit
0x80 of byte 2 is set, `m` is the low 7 bits of byte 2 and `f` is byte 3,
the fraction carrying the sign of the whole part. -/
theorem claim4_format3_temperature :
    ∀ data : List ℕ, data.length = 14 → data.getD 0 0 = 3 →
      data.getD 2 0 < 256 →
      ∃ r : Format3Data, DecodeFormat3 data = .ok r ∧
        r.temperature = (if data.getD 2 0 = 0 ∧ data.getD 3 0 = 0 then none
          else some ((if 128 ≤ data.getD 2 0 then (-1 : ℚ) else 1) *
            ((data.getD 2 0 % 128 : ℕ) + (data.getD 3 0 : ℕ) * (1/100)))) := by
  intro data h14 htag hb2
  rw [DecodeFormat3, if_neg (by omega), if_neg (by omega)]
  refine ⟨_, rfl, ?_⟩
  show (if int8val (data.getD 2 0) = 0 ∧ data.getD 3 0 = 0 then none else _) = _
  have hsent : (int8val (data.getD 2 0) = 0 ∧ data.getD 3 0 = 0) ↔
      (data.getD 2 0 = 0 ∧ data.getD 3 0 = 0) := by
    unfold int8val; split_ifs <;> constructor <;> intro h <;>
      exact ⟨by omega, h.2⟩
  by_cases hz : data.getD 2 0 = 0 ∧ data.getD 3 0 = 0
  · rw [if_pos (hsent.mpr hz), if_pos hz]
  · rw [if_neg (fun h => hz (hsent.mp h)), if_neg hz]
    by_cases hneg : 128 ≤ data.getD 2 0
    · have h1 : int8val (data.getD 2 0) < 0 := by unfold int8val; split_ifs <;> omega
      rw [if_pos h1, if_pos hneg]
      ring_nf
    · have h1 : ¬ int8val (data.getD 2 0) < 0 := by unfold int8val; split_ifs <;> omega
      have h2 : data.getD 2 0 % 128 = data.getD 2 0 := Nat.mod_eq_of_lt (by omega)
      rw [if_neg h1, if_neg hneg]
      unfold int8val
      rw [if_pos (by omega), h2]
      push_cast
      ring_nf

/-- Witness for C4: instantiated on the Format 3 frame with temperature
bytes `0x81 0x2A` (−1.42 °C). -/
theorem claim4_witness :
    ∃ r : Format3Data,
      DecodeFormat3 [3, 0, 129, 42, 0, 0, 0, 0, 0, 0, 0, 0, 0, 0] = .ok r ∧
      r.temperature = (if [3, 0, 129, 42, 0, 0, 0, 0, 0, 0, 0, 0, 0, 0].getD 2 0 = 0 ∧
          [3, 0, 129, 42, 0, 0, 0, 0, 0, 0, 0, 0, 0, 0].getD 3 0 = 0 then none
        else some ((if 128 ≤ [3, 0, 129, 42, 0, 0, 0, 0, 0, 0, 0, 0, 0, 0].getD 2 0
            then (-1 : ℚ) else 1) *
          (([3, 0, 129, 42, 0, 0, 0, 0, 0, 0, 0, 0, 0, 0].getD 2 0 % 128 : ℕ) +
            ([3, 0, 129, 42, 0, 0, 0, 0, 0, 0, 0, 0, 0, 0].getD 3 0 : ℕ) * (1/100)))) :=
  claim4_format3_temperature [3, 0, 129, 42, 0, 0, 0, 0, 0, 0, 0, 0, 0, 0]
    (by decide) (by decide) (by decide)

/-- Claim C6: every 14-byte frame accepted by `DecodeFormat3` yields all
three acceleration slots present — each the signed 16-bit big-endian raw
divided by 1000 — with no sentinel raw value mapping to absence. -/
theorem claim6_format3_acceleration :
    ∀ data : List ℕ, data.length = 14 → data.getD 0 0 = 3 →
      ∃ r : Format3Data, DecodeFormat3 data = .ok r ∧
        r.accelerationX = some ((toInt16 (u16be (data.getD 6 0) (data.getD 7 0)) : ℚ) / 1000) ∧
        r.accelerationY = some ((toInt16 (u16be (data.getD 8 0) (data.getD 9 0)) : ℚ) / 1000) ∧
        r.accelerationZ = some ((toInt16 (u16be (data.getD 10 0) (data.getD 11 0)) : ℚ) / 1000) := by
  intro data h14 htag
  rw [DecodeFormat3, if_neg (by omega), if_neg (by omega)]
  exact ⟨_, rfl, rfl, rfl, rfl⟩

/-- Witness for C6: instantiated on the official Format 3 test vector
`03291A1ECE1EFC18F94202CA0B53`. -/
theorem claim6_witness :
    ∃ r : Format3Data,
      DecodeFormat3 [3, 41, 26, 30, 206, 30, 252, 24, 249, 66, 2, 202, 11, 83] = .ok r ∧
      r.accelerationX = some ((toInt16 (u16be 252 24) : ℚ) / 1000) ∧
      r.accelerationY = some ((toInt16 (u16be 249 66) : ℚ) / 1000) ∧
      r.accelerationZ = some ((toInt16 (u16be 2 202) : ℚ) / 1000) :=
  claim6_format3_acceleration [3, 41, 26, 30, 206, 30, 252, 24, 249, 66, 2, 202, 11, 83]
    (by decide) (by decide)

lemma encMac5_length (m : Option (List ℕ)) : (encMac5 m).length = 6 := by
  cases m with
  | none => rfl
  | some l => simp [encMac5]

lemma encodeFormat5_length (d : Format5Data) : (EncodeFormat5 d).length = 24 := by
  simp [EncodeFormat5, encMac5_length]

/-- Claim C9: the manufacturer-envelope encoder returns 26 bytes — the
little-endian identifier bytes `0x99 0x04` followed by exactly the
`EncodeFormat5` payload — and the stripping direction removes exactly the
2-byte prefix, validating nothing about the identifier beyond the length.
(Both helpers are modelled from the spec, §4.2, since only their tests are
under `src/`.) -/
theorem claim9_manufacturer_envelope :
    ∀ d : Format5Data,
      (EncodeFormat5ManufacturerData d).length = 26 ∧
      (EncodeFormat5ManufacturerData d).take 2 = [153, 4] ∧
      (EncodeFormat5ManufacturerData d).drop 2 = EncodeFormat5 d ∧
      stripManufacturerData (EncodeFormat5ManufacturerData d) = .ok (EncodeFormat5 d) ∧
      (∀ a b : ℕ, ∀ rest : List ℕ, rest.length = 24 →
        stripManufacturerData (a :: b :: rest) = .ok rest) := by
  intro d
  have hlen : (EncodeFormat5ManufacturerData d).length = 26 := by
    simp [EncodeFormat5ManufacturerData, encodeFormat5_length]
  refine ⟨hlen, rfl, rfl, ?_, ?_⟩
  · rw [stripManufacturerData, if_pos hlen]; rfl
  · intro a b rest hrest
    rw [stripManufacturerData, if_pos (by simp [hrest])]; rfl

/-- Witness for C9: the envelope of the all-absent reading, and stripping a
26-byte sequence with an arbitrary (non-0x9904) identifier. -/
theorem claim9_witness :
    (EncodeFormat5ManufacturerData
        ⟨none, none, none, none, none, none, none, none, none, none, none⟩).take 2
      = [153, 4] ∧
    stripManufacturerData (0 :: 1 :: List.replicate 24 7) = .ok (List.replicate 24 7) :=
  ⟨(claim9_manufacturer_envelope
      ⟨none, none, none, none, none, none, none, none, none, none, none⟩).2.1,
   (claim9_manufacturer_envelope
      ⟨none, none, none, none, none, none, none, none, none, none, none⟩).2.2.2.2
     0 1 (List.replicate 24 7) (by decide)⟩

lemma trunc0_nonneg_bounds (q : ℚ) (h0 : 0 ≤ q) (h : q < 128) :
    0 ≤ trunc0 q ∧ trunc0 q < 128 := by
  rw [trunc0, if_pos h0]
  exact ⟨Int.floor_nonneg.mpr h0, Int.floor_lt.mpr (by exact_mod_cast h)⟩

lemma roundNN_centifrac_le (x : ℚ) : roundNN ((x - ⌊x⌋) * 100) ≤ 100 := by
  have h1 : x - ⌊x⌋ < 1 := by
    have := Int.fract_lt_one x
    rw [Int.fract] at this
    exact this
  have h2 : (x - ⌊x⌋) * 100 + 1/2 < 101 := by nlinarith
  have := Int.floor_lt.mpr (show (x - ⌊x⌋) * 100 + 1/2 < ((101 : ℤ) : ℚ) by
    exact_mod_cast h2)
  rw [roundNN]
  omega

/-- Claim C7: when the temperature slot of a `Format2Data`/`Format4Data`
is present (with in-range magnitude, below 128 °C, so that Go's
float-to-`int8` conversion is defined), the encoders write byte 2 as the
whole-degree magnitude truncated toward zero with the 0x80 sign bit set
exactly when the value is negative, and always write byte 3 as zero. -/
theorem claim7_format24_whole_degrees :
    (∀ (d : Format2Data) (q : ℚ), d.temperature = some q → -128 < q → q < 128 →
      (EncodeFormat2 d).getD 2 0 =
        (if q < 0 then (trunc0 (-q)).toNat + 128 else (trunc0 q).toNat) ∧
      (128 ≤ (EncodeFormat2 d).getD 2 0 ↔ q < 0) ∧
      (EncodeFormat2 d).getD 3 0 = 0) ∧
    (∀ (d : Format4Data) (q : ℚ), d.temperature = some q → -128 < q → q < 128 →
      (EncodeFormat4 d).getD 2 0 =
        (if q < 0 then (trunc0 (-q)).toNat + 128 else (trunc0 q).toNat) ∧
      (128 ≤ (EncodeFormat4 d).getD 2 0 ↔ q < 0) ∧
      (EncodeFormat4 d).getD 3 0 = 0) := by
  have key : ∀ q : ℚ, -128 < q → q < 128 →
      (encTemp24 (some q)).1 =
        (if q < 0 then (trunc0 (-q)).toNat + 128 else (trunc0 q).toNat) ∧
      (128 ≤ (encTemp24 (some q)).1 ↔ q < 0) ∧
      (encTemp24 (some q)).2 = 0 := by
    intro q hlo hhi
    have hpair : encTemp24 (some q) =
        (if q < 0 then ((trunc0 (-q) % 128).toNat + 128, 0)
          else (goUint8 (trunc0 q), 0)) := rfl
    by_cases hneg : q < 0
    · obtain ⟨hl, hr⟩ := trunc0_nonneg_bounds (-q) (by linarith) (by linarith)
      rw [hpair, if_pos hneg, if_pos hneg, Int.emod_eq_of_lt hl (by omega)]
      exact ⟨rfl, iff_of_true (by omega) hneg, rfl⟩
    · obtain ⟨hl, hr⟩ := trunc0_nonneg_bounds q (by linarith) hhi
      rw [hpair, if_neg hneg, if_neg hneg, goUint8,
        Int.emod_eq_of_lt hl (by omega)]
      exact ⟨rfl, iff_of_false (by omega) hneg, rfl⟩
  constructor
  · rintro ⟨dt, dh, dp⟩ q hq hlo hhi
    cases hq
    exact key q hlo hhi
  · rintro ⟨dt, dh, dp, dg⟩ q hq hlo hhi
    cases hq
    exact key q hlo hhi

/-- Witness for C7: a Format 2 reading at −5 °C and a Format 4 reading at
20 °C. -/
theorem claim7_witness :
    ((EncodeFormat2 ⟨some (-5), none, none⟩).getD 2 0 =
        (if (-5 : ℚ) < 0 then (trunc0 (-(-5 : ℚ))).toNat + 128
          else (trunc0 (-5 : ℚ)).toNat) ∧
      (128 ≤ (EncodeFormat2 ⟨some (-5), none, none⟩).getD 2 0 ↔ (-5 : ℚ) < 0) ∧
      (EncodeFormat2 ⟨some (-5), none, none⟩).getD 3 0 = 0) ∧
    ((EncodeFormat4 ⟨some 20, none, none, none⟩).getD 2 0 =
        (if (20 : ℚ) < 0 then (trunc0 (-(20 : ℚ))).toNat + 128
          else (trunc0 (20 : ℚ)).toNat) ∧
      (128 ≤ (EncodeFormat4 ⟨some 20, none, none, none⟩).getD 2 0 ↔ (20 : ℚ) < 0) ∧
      (EncodeFormat4 ⟨some 20, none, none, none⟩).getD 3 0 = 0) :=
  ⟨claim7_format24_whole_degrees.1 ⟨some (-5), none, none⟩ (-5) rfl
      (by decide) (by decide),
   claim7_format24_whole_degrees.2 ⟨some 20, none, none, none⟩ 20 rfl
      (by decide) (by decide)⟩

/-- Counterexample to C8 as stated: a present temperature of 0.999 °C
(magnitude below 128) makes `EncodeFormat3` write byte 3 as
`Round(0.999 * 100) = 100`, outside the claimed range 0–99. -/
theorem claim8_counterexample :
    (⟨some (999/1000), none, none, none, none, none, none⟩ : Format3Data).temperature
        = some (999/1000) ∧
    (EncodeFormat3 ⟨some (999/1000), none, none, none, none, none, none⟩).getD 3 0
        = 100 := by
  refine ⟨rfl, ?_⟩
  have h0 : trunc0 ((999 : ℚ)/1000) = 0 := by
    rw [trunc0, if_pos (by norm_num)]
    norm_num [Int.floor_eq_iff]
  have hfr : roundNN (((999 : ℚ)/1000 - ((0 : ℤ) : ℚ)) * 100) = 100 := by
    rw [roundNN]
    norm_num [Int.floor_eq_iff]
  have : encTemp3 (some ((999 : ℚ)/1000)) = (0, 100) := by
    rw [encTemp3]
    simp only [if_neg (by norm_num : ¬ (999 : ℚ)/1000 < 0)]
    rw [h0, hfr]
    rfl
  show (EncodeFormat3 ⟨some (999/1000), none, none, none, none, none, none⟩).getD 3 0 = 100
  rw [EncodeFormat3]
  simp [this]

/-- Claim C8 as amended: for a present in-range temperature, `EncodeFormat3`
writes byte 3 — the rounded fractional-centidegree magnitude — in the range
0 to 100 (100 occurs when the fraction rounds up to a whole degree), and
sets the sign bit of byte 2 exactly when the value is negative. -/
theorem claim8_amended :
    ∀ (d : Format3Data) (q : ℚ), d.temperature = some q → -128 < q → q < 128 →
      (EncodeFormat3 d).getD 3 0 ≤ 100 ∧
      (128 ≤ (EncodeFormat3 d).getD 2 0 ↔ q < 0) := by
  rintro ⟨dt, dh, dp, dx, dy, dz, db⟩ q hq hlo hhi
  cases hq
  have hgd2 : (EncodeFormat3 ⟨some q, dh, dp, dx, dy, dz, db⟩).getD 2 0 =
    (encTemp3 (some q)).1 := rfl
  have hgd3 : (EncodeFormat3 ⟨some q, dh, dp, dx, dy, dz, db⟩).getD 3 0 =
    (encTemp3 (some q)).2 := rfl
  rw [hgd2, hgd3]
  have hpair : encTemp3 (some q) =
      (if q < 0 then
        ((trunc0 (-q) % 128).toNat + 128,
          (roundNN ((-q - (trunc0 (-q) : ℚ)) * 100)).toNat)
      else (goUint8 (trunc0 q),
          (roundNN ((q - (trunc0 q : ℚ)) * 100)).toNat)) := rfl
  by_cases hneg : q < 0
  · obtain ⟨hl, hr⟩ := trunc0_nonneg_bounds (-q) (by linarith) (by linarith)
    have htr : trunc0 (-q) = ⌊-q⌋ := if_pos (by linarith)
    have hfr := roundNN_centifrac_le (-q)
    rw [hpair, if_pos hneg, htr] at *
    exact ⟨by omega, iff_of_true (by omega) hneg⟩
  · obtain ⟨hl, hr⟩ := trunc0_nonneg_bounds q (by linarith) hhi
    have htr : trunc0 q = ⌊q⌋ := if_pos (by linarith)
    have hfr := roundNN_centifrac_le q
    rw [hpair, if_neg hneg, htr, goUint8,
      Int.emod_eq_of_lt (by omega) (by omega)]
    exact ⟨by omega, iff_of_false (by omega) hneg⟩

/-- Witness for C8 (amended): instantiated at −0.999 °C, where byte 3 is
written as 100 and the sign bit is set. -/
theorem claim8_witness :
    (EncodeFormat3 ⟨some (-(999/1000)), none, none, none, none, none, none⟩).getD 3 0 ≤ 100 ∧
    (128 ≤ (EncodeFormat3 ⟨some (-(999/1000)), none, none, none, none, none, none⟩).getD 2 0 ↔
      (-(999/1000) : ℚ) < 0) :=
  claim8_amended ⟨some (-(999/1000)), none, none, none, none, none, none⟩
    (-(999/1000)) rfl (by norm_num) (by norm_num)

lemma encBattBits_le (b : Option ℤ) : encBattBits b ≤ 65504 := by
  cases b with
  | none => exact Nat.le_refl _
  | some v =>
    have : goUint16 (v - 1600) % 2048 < 2048 := Nat.mod_lt _ (by omega)
    simp only [encBattBits]
    omega

lemma encTxBits_le (t : Option ℤ) : encTxBits t ≤ 31 := by
  cases t with
  | none => exact Nat.le_refl _
  | some v => exact Nat.le_of_lt_succ (Nat.mod_lt _ (by omega))

lemma encBattBits_mod32 (b : Option ℤ) : encBattBits b % 32 = 0 := by
  cases b with
  | none => rfl
  | some v => simp [encBattBits, Nat.mul_mod_left]

lemma u16be_byteHiLo (n : ℕ) (h : n < 65536) :
    u16be (byteHi n) (byteLo n) = n := by
  rw [u16be, byteHi, byteLo]
  omega

/-- Counterexample to C3 as stated: the reading with a present battery
voltage of 3647 mV encodes to raw `3647 − 1600 = 0x7FF`, the battery
sentinel, so encoding then decoding turns the present battery slot into an
absent one; likewise a present tx power of 22 dBm encodes to raw
`(22+40)/2 = 0x1F`, the tx sentinel.  This refutes "battery absent iff the
input battery was absent" (and the tx analogue) over all of `Format5Data`. -/
theorem claim3_counterexample :
    (⟨none, none, none, none, none, none, some 3647, some 22, none, none,
        none⟩ : Format5Data).batteryVoltage = some 3647 ∧
    (⟨none, none, none, none, none, none, some 3647, some 22, none, none,
        none⟩ : Format5Data).txPower = some 22 ∧
    (DecodeFormat5 (EncodeFormat5
        ⟨none, none, none, none, none, none, some 3647, some 22, none, none,
          none⟩)).toOption.map Format5Data.batteryVoltage = some none ∧
    (DecodeFormat5 (EncodeFormat5
        ⟨none, none, none, none, none, none, some 3647, some 22, none, none,
          none⟩)).toOption.map Format5Data.txPower = some none := by
  refine ⟨rfl, rfl, ?_, ?_⟩ <;> decide

/-- Claim C3 as amended: `EncodeFormat5` packs bytes 13–14 as
`powerInfo = (battery_raw & 0x7FF) << 5 | (tx_raw & 0x1F)` with sentinel
raws 0x7FF/0x1F substituted independently for absent slots;
`DecodeFormat5` unpacks `battery_raw = powerInfo >> 5` and
`tx_raw = powerInfo & 0x1F`; and encoding then decoding preserves the
battery and tx present/absent states — including the two partial cases —
provided each present value encodes to a raw other than its sentinel
(e.g. battery 1600–3646 mV, tx −40–21 dBm); without that proviso the
preservation fails (battery 3647 mV, tx 22 dBm). -/
theorem claim3_amended :
    (∀ d : Format5Data,
      u16be ((EncodeFormat5 d).getD 13 0) ((EncodeFormat5 d).getD 14 0)
        = encBattBits d.batteryVoltage + encTxBits d.txPower ∧
      encBattBits none = 2047 * 32 ∧ encTxBits none = 31 ∧
      (∀ v : ℤ, encBattBits (some v) = (goUint16 (v - 1600) % 2048) * 32) ∧
      (∀ t : ℤ, encTxBits (some t) = goUint16 (Int.tdiv (t + 40) 2) % 32)) ∧
    (∀ data : List ℕ, data.length = 24 → data.getD 0 0 = 5 →
      ∃ r : Format5Data, DecodeFormat5 data = .ok r ∧
        r.batteryVoltage = (if u16be (data.getD 13 0) (data.getD 14 0) / 32 = 2047
          then none
          else some ((u16be (data.getD 13 0) (data.getD 14 0) / 32 : ℤ) + 1600)) ∧
        r.txPower = (if u16be (data.getD 13 0) (data.getD 14 0) % 32 = 31
          then none
          else some ((u16be (data.getD 13 0) (data.getD 14 0) % 32 : ℤ) * 2 - 40))) ∧
    (∀ d : Format5Data,
      (∀ v : ℤ, d.batteryVoltage = some v → goUint16 (v - 1600) % 2048 ≠ 2047) →
      (∀ t : ℤ, d.txPower = some t → goUint16 (Int.tdiv (t + 40) 2) % 32 ≠ 31) →
      ∃ r : Format5Data, DecodeFormat5 (EncodeFormat5 d) = .ok r ∧
        (r.batteryVoltage = none ↔ d.batteryVoltage = none) ∧
        (r.txPower = none ↔ d.txPower = none)) := by
  have hgd13 : ∀ d : Format5Data, (EncodeFormat5 d).getD 13 0 =
      byteHi (encBattBits d.batteryVoltage + encTxBits d.txPower) := fun d => rfl
  have hgd14 : ∀ d : Format5Data, (EncodeFormat5 d).getD 14 0 =
      byteLo (encBattBits d.batteryVoltage + encTxBits d.txPower) := fun d => rfl
  have hpi : ∀ d : Format5Data,
      u16be ((EncodeFormat5 d).getD 13 0) ((EncodeFormat5 d).getD 14 0)
        = encBattBits d.batteryVoltage + encTxBits d.txPower := by
    intro d
    rw [hgd13, hgd14, u16be_byteHiLo]
    have h1 := encBattBits_le d.batteryVoltage
    have h2 := encTxBits_le d.txPower
    omega
  refine ⟨fun d => ⟨hpi d, rfl, rfl, fun v => rfl, fun t => rfl⟩,
    fun data h24 htag => ?_, fun d hb ht => ?_⟩
  · rw [DecodeFormat5, if_neg (by omega), if_neg (by omega)]
    exact ⟨_, rfl, rfl, rfl⟩
  · rw [DecodeFormat5, if_neg (by rw [encodeFormat5_length]; omega),
      if_neg (by rw [show (EncodeFormat5 d).getD 0 0 = 5 from rfl]; omega)]
    refine ⟨_, rfl, ?_, ?_⟩
    · show (if u16be ((EncodeFormat5 d).getD 13 0) ((EncodeFormat5 d).getD 14 0) / 32
          = 2047 then none
          else some ((u16be ((EncodeFormat5 d).getD 13 0)
            ((EncodeFormat5 d).getD 14 0) / 32 : ℤ) + 1600)) = none
        ↔ d.batteryVoltage = none
      rw [hpi d]
      have htx := encTxBits_le d.txPower
      have hmod := encBattBits_mod32 d.batteryVoltage
      cases hbv : d.batteryVoltage with
      | none =>
        rw [show encBattBits none = 65504 from rfl]
        rw [if_pos (by omega)]
      | some v =>
        have hne := hb v hbv
        have hlt : goUint16 (v - 1600) % 2048 < 2048 := Nat.mod_lt _ (by omega)
        rw [show encBattBits (some v) = (goUint16 (v - 1600) % 2048) * 32 from rfl]
        rw [if_neg (by omega)]
        simp
    · show (if u16be ((EncodeFormat5 d).getD 13 0) ((EncodeFormat5 d).getD 14 0) % 32
          = 31 then none
          else some ((u16be ((EncodeFormat5 d).getD 13 0)
            ((EncodeFormat5 d).getD 14 0) % 32 : ℤ) * 2 - 40)) = none
        ↔ d.txPower = none
      rw [hpi d]
      have hmod := encBattBits_mod32 d.batteryVoltage
      cases htv : d.txPower with
      | none =>
        rw [show encTxBits none = 31 from rfl]
        rw [if_pos (by omega)]
      | some t =>
        have hne := ht t htv
        have hlt : goUint16 (Int.tdiv (t + 40) 2) % 32 < 32 := Nat.mod_lt _ (by omega)
        rw [show encTxBits (some t) = goUint16 (Int.tdiv (t + 40) 2) % 32 from rfl]
        rw [if_neg (by omega)]
        simp

/-- Witness for C3 (amended): a reading with battery 2977 mV present and tx
power absent — one of the two partial power-info cases — encodes and
decodes back to a present battery and an absent tx power. -/
theorem claim3_witness :
    ∃ r : Format5Data,
      DecodeFormat5 (EncodeFormat5
        ⟨none, none, none, none, none, none, some 2977, none, none, none,
          none⟩) = .ok r ∧
      (r.batteryVoltage = none ↔
        (⟨none, none, none, none, none, none, some 2977, none, none, none,
          none⟩ : Format5Data).batteryVoltage = none) ∧
      (r.txPower = none ↔
        (⟨none, none, none, none, none, none, some 2977, none, none, none,
          none⟩ : Format5Data).txPower = none) :=
  claim3_amended.2.2
    ⟨none, none, none, none, none, none, some 2977, none, none, none, none⟩
    (fun v hv => by
      have : v = 2977 := by injection hv with h; omega
      subst this
      decide)
    (fun t ht => Option.noConfusion ht)

/-- Counterexample to C10 as stated: on the 24-byte all-zero sequence
(tag byte 0x00) `DecodeFormat5` fails with the wrong-format-tag error while
`parseFormat5` succeeds (its pressure slot decodes to 50000 Pa), because
`parseFormat5` checks only the length, never the tag byte.  So the two
decoders do not succeed or fail together on every byte sequence. -/
theorem claim10_counterexample :
    DecodeFormat5 (List.replicate 24 0) = .error .wrongFormatTag ∧
    (parseFormat5 (List.replicate 24 0)).toOption.map Measurement.pressure
      = some (some 50000) := by
  exact ⟨rfl, rfl⟩

/-- Claim C10 as amended: `DecodeFormat5` and `parseFormat5` agree modulo
the tag check that only `DecodeFormat5` performs — when `parseFormat5` is
reached through its dispatcher `ParseManufacturerData` (which re-checks the
tag), the two entry points succeed or fail together on every byte sequence
(with bytes 13–14 in byte range), and on success they agree field by field:
equal present/absent pattern and equal physical values for every slot. -/
theorem claim10_amended :
    ∀ data : List ℕ, data.getD 13 0 < 256 → data.getD 14 0 < 256 →
      (((DecodeFormat5 data).toOption = none) ↔
        ((ParseManufacturerData data).toOption = none)) ∧
      (∀ (r : Format5Data) (m : Measurement),
        DecodeFormat5 data = .ok r → ParseManufacturerData data = .ok m →
        m.temperature = r.temperature ∧
        m.humidity = r.humidity ∧
        m.pressure.map (fun n => (n : ℤ)) = r.pressure ∧
        m.accelerationX = r.accelerationX ∧
        m.accelerationY = r.accelerationY ∧
        m.accelerationZ = r.accelerationZ ∧
        m.batteryVoltage.map (fun n => (n : ℤ)) = r.batteryVoltage ∧
        m.txPower = r.txPower ∧
        m.movementCounter = r.movementCounter ∧
        m.measurementSequence = r.measurementSequence ∧
        m.macAddress = r.macAddress) := by
  intro data h13 h14
  by_cases hlen : data.length = 24
  · by_cases htag : data.getD 0 0 = 5
    · constructor
      · rw [DecodeFormat5, if_neg (by omega), if_neg (by omega),
          ParseManufacturerData, if_neg (by omega), if_pos htag,
          parseFormat5, if_neg (by omega)]
        simp [Except.toOption]
      · intro r m hr hm
        rw [DecodeFormat5, if_neg (by omega), if_neg (by omega)] at hr
        rw [ParseManufacturerData, if_neg (by omega), if_pos htag,
          parseFormat5, if_neg (by omega)] at hm
        injection hr with hr'
        injection hm with hm'
        subst hr'
        subst hm'
        have hpi : u16be (data.getD 13 0) (data.getD 14 0) < 65536 := by
          rw [u16be]; omega
        refine ⟨rfl, rfl, ?_, rfl, rfl, rfl, ?_, ?_, rfl, rfl, rfl⟩
        · show (if u16be (data.getD 5 0) (data.getD 6 0) = 65535 then none
              else some (u16be (data.getD 5 0) (data.getD 6 0) + 50000)).map
              (fun n => (n : ℤ))
            = if u16be (data.getD 5 0) (data.getD 6 0) = 65535 then none
              else some ((u16be (data.getD 5 0) (data.getD 6 0) : ℤ) + 50000)
          split_ifs with h
          · rfl
          · simp
        · show (if (u16be (data.getD 13 0) (data.getD 14 0) / 32) % 2048 = 2047
              then none
              else some (((u16be (data.getD 13 0) (data.getD 14 0) / 32) % 2048
                + 1600) % 65536)).map (fun n => (n : ℤ))
            = if u16be (data.getD 13 0) (data.getD 14 0) / 32 = 2047 then none
              else some ((u16be (data.getD 13 0) (data.getD 14 0) / 32 : ℤ) + 1600)
          have h1 : (u16be (data.getD 13 0) (data.getD 14 0) / 32) % 2048
              = u16be (data.getD 13 0) (data.getD 14 0) / 32 :=
            Nat.mod_eq_of_lt (by omega)
          rw [h1]
          split_ifs with h
          · rfl
          · have h2 : u16be (data.getD 13 0) (data.getD 14 0) / 32 + 1600 < 65536 := by
              omega
            rw [Nat.mod_eq_of_lt h2]
            simp
        · show (if u16be (data.getD 13 0) (data.getD 14 0) % 32 = 31 then none
              else some (int8val ((u16be (data.getD 13 0) (data.getD 14 0) % 32 * 2
                + 65496) % 65536 % 256)))
            = if u16be (data.getD 13 0) (data.getD 14 0) % 32 = 31 then none
              else some ((u16be (data.getD 13 0) (data.getD 14 0) % 32 : ℤ) * 2 - 40)
          split_ifs with h
          · rfl
          · have ht31 : u16be (data.getD 13 0) (data.getD 14 0) % 32 < 32 :=
              Nat.mod_lt _ (by omega)
            refine congrArg some ?_
            rw [int8val]
            split_ifs with h128 <;> omega
    · constructor
      · rw [DecodeFormat5, if_neg (by omega), if_pos htag,
          ParseManufacturerData, if_neg (by omega), if_neg htag]
        simp [Except.toOption]
      · intro r m hr hm
        rw [DecodeFormat5, if_neg (by omega), if_pos htag] at hr
        exact Except.noConfusion hr
  · constructor
    · by_cases h0 : data.length = 0
      · rw [DecodeFormat5, if_pos (by omega), ParseManufacturerData, if_pos h0]
        simp [Except.toOption]
      · by_cases htag : data.getD 0 0 = 5
        · rw [DecodeFormat5, if_pos (by omega), ParseManufacturerData,
            if_neg h0, if_pos htag, parseFormat5, if_pos (by omega)]
          simp [Except.toOption]
        · rw [DecodeFormat5, if_pos (by omega), ParseManufacturerData,
            if_neg h0, if_neg htag]
          simp [Except.toOption]
    · intro r m hr hm
      rw [DecodeFormat5, if_pos (by omega)] at hr
      exact Except.noConfusion hr

/-- Witness for C10 (amended): on the official full test vector the two
decoders both succeed and agree field by field. -/
theorem claim10_witness :
    (((DecodeFormat5 fullFrame5).toOption = none) ↔
      ((ParseManufacturerData fullFrame5).toOption = none)) ∧
    (∀ (r : Format5Data) (m : Measurement),
      DecodeFormat5 fullFrame5 = .ok r → ParseManufacturerData fullFrame5 = .ok m →
      m.temperature = r.temperature ∧
      m.humidity = r.humidity ∧
      m.pressure.map (fun n => (n : ℤ)) = r.pressure ∧
      m.accelerationX = r.accelerationX ∧
      m.accelerationY = r.accelerationY ∧
      m.accelerationZ = r.accelerationZ ∧
      m.batteryVoltage.map (fun n => (n : ℤ)) = r.batteryVoltage ∧
      m.txPower = r.txPower ∧
      m.movementCounter = r.movementCounter ∧
      m.measurementSequence = r.measurementSequence ∧
      m.macAddress = r.macAddress) :=
  claim10_amended fullFrame5 (by decide) (by decide)

/-! ## Round-trip domain for C1 -/

/-- A well-formed Format 5 frame whose temperature, humidity and
acceleration fields are at their sentinels, all other fields arbitrary. -/
def frame5S (p1 p2 w1 w2 mv s1 s2 m1 m2 m3 m4 m5 m6 : ℕ) : List ℕ :=
  [5, 128, 0, 255, 255, p1, p2, 128, 0, 128, 0, 128, 0,
   w1, w2, mv, s1, s2, m1, m2, m3, m4, m5, m6]

/-- A well-formed Format 3 frame whose temperature is at its sentinel and
whose acceleration bytes are zero, other fields arbitrary. -/
def frame3S (hu pr1 pr2 bv1 bv2 : ℕ) : List ℕ :=
  [3, hu, 0, 0, pr1, pr2, 0, 0, 0, 0, 0, 0, bv1, bv2]

lemma byteHi_u16be (a b : ℕ) (ha : a < 256) (hb : b < 256) :
    byteHi (u16be a b) = a := by
  rw [byteHi, u16be]; omega

lemma byteLo_u16be (a b : ℕ) (_ : a < 256) (hb : b < 256) :
    byteLo (u16be a b) = b := by
  rw [byteLo, u16be]; omega

lemma press5_rt (p1 p2 : ℕ) (h1 : p1 < 256) (h2 : p2 < 256) :
    encPress5 (if u16be p1 p2 = 65535 then none
      else some ((u16be p1 p2 : ℤ) + 50000)) = u16be p1 p2 := by
  split_ifs with h
  · rw [encPress5, h]
  · rw [encPress5, goUint16, u16be] at *
    omega

lemma power5_rt (w1 w2 : ℕ) (h1 : w1 < 256) (h2 : w2 < 256) :
    encBattBits (if u16be w1 w2 / 32 = 2047 then none
        else some (((u16be w1 w2 / 32 : ℕ) : ℤ) + 1600)) +
      encTxBits (if u16be w1 w2 % 32 = 31 then none
        else some (((u16be w1 w2 % 32 : ℕ) : ℤ) * 2 - 40)) = u16be w1 w2 := by
  have hpi : u16be w1 w2 < 65536 := by rw [u16be]; omega
  have htx : ∀ t : ℕ, t < 65536 →
      encTxBits (some ((t : ℤ) * 2 - 40)) = t % 32 := by
    intro t htl
    rw [encTxBits]
    have harg : ((t : ℤ) * 2 - 40 + 40) = (t : ℤ) * 2 := by ring
    rw [harg, Int.mul_tdiv_cancel _ (by norm_num), goUint16]
    omega
  split_ifs with hb ht ht
  · rw [encBattBits, encTxBits, u16be] at *
    omega
  · rw [encBattBits] at *
    rw [htx _ (by omega)]
    rw [u16be] at *
    omega
  · rw [encBattBits, encTxBits, goUint16, u16be] at *
    omega
  · rw [encBattBits] at *
    rw [htx _ (by omega)]
    rw [goUint16, u16be] at *
    omega

lemma seq5_rt (s1 s2 : ℕ) :
    (match (if u16be s1 s2 = 65535 then none else some (u16be s1 s2)) with
      | none => 65535 | some s => s) = u16be s1 s2 := by
  split_ifs with h
  · exact h.symm
  · rfl

lemma mv5_rt (mv : ℕ) :
    (match (if mv = 255 then none else some mv) with
      | none => 255 | some m => m) = mv := by
  split_ifs with h
  · exact h.symm
  · rfl

lemma mac5_rt (m1 m2 m3 m4 m5 m6 : ℕ) :
    encMac5 (if [m1, m2, m3, m4, m5, m6] = List.replicate 6 255 then none
      else some [m1, m2, m3, m4, m5, m6]) = [m1, m2, m3, m4, m5, m6] := by
  split_ifs with h
  · rw [encMac5, h]
  · rfl

lemma roundtrip5_bytes (p1 p2 w1 w2 mv s1 s2 m1 m2 m3 m4 m5 m6 : ℕ)
    (hp1 : p1 < 256) (hp2 : p2 < 256) (hw1 : w1 < 256) (hw2 : w2 < 256)
    (hs1 : s1 < 256) (hs2 : s2 < 256) :
    EncodeFormat5
      ⟨none, none,
        (if u16be p1 p2 = 65535 then none
          else some (((u16be p1 p2 : ℕ) : ℤ) + 50000)),
        none, none, none,
        (if u16be w1 w2 / 32 = 2047 then none
          else some (((u16be w1 w2 / 32 : ℕ) : ℤ) + 1600)),
        (if u16be w1 w2 % 32 = 31 then none
          else some (((u16be w1 w2 % 32 : ℕ) : ℤ) * 2 - 40)),
        (if mv = 255 then none else some mv),
        (if u16be s1 s2 = 65535 then none else some (u16be s1 s2)),
        (if [m1, m2, m3, m4, m5, m6] = List.replicate 6 255 then none
          else some [m1, m2, m3, m4, m5, m6])⟩
      = frame5S p1 p2 w1 w2 mv s1 s2 m1 m2 m3 m4 m5 m6 := by
  simp only [EncodeFormat5]
  rw [press5_rt p1 p2 hp1 hp2, power5_rt w1 w2 hw1 hw2, seq5_rt s1 s2,
    mv5_rt mv, mac5_rt m1 m2 m3 m4 m5 m6,
    byteHi_u16be p1 p2 hp1 hp2, byteLo_u16be p1 p2 hp1 hp2,
    byteHi_u16be w1 w2 hw1 hw2, byteLo_u16be w1 w2 hw1 hw2,
    byteHi_u16be s1 s2 hs1 hs2, byteLo_u16be s1 s2 hs1 hs2]
  rfl

lemma hum3_rt (hu : ℕ) (h : hu < 256) :
    encHumByte (if hu = 0 then none else some ((hu : ℚ) * (1/2))) = hu := by
  split_ifs with h0
  · rw [encHumByte, h0]
  · rw [encHumByte]
    have hdiv : ((hu : ℚ) * (1/2)) / (1/2) = (hu : ℚ) := by ring
    rw [hdiv, trunc0, if_pos (by positivity), Int.floor_natCast, goUint8]
    omega

lemma press3_rt (pr1 pr2 : ℕ) (h1 : pr1 < 256) (h2 : pr2 < 256) :
    encPress0 (if u16be pr1 pr2 = 0 then none
      else some (((u16be pr1 pr2 : ℕ) : ℤ) + 50000)) = u16be pr1 pr2 := by
  split_ifs with h
  · rw [encPress0, h]
  · rw [encPress0, goUint16, u16be] at *
    omega

lemma acc3_zero_rt :
    encAcc3 (some ((toInt16 (u16be 0 0) : ℚ) / 1000)) = 0 := by
  rw [encAcc3]
  have h0 : (toInt16 (u16be 0 0) : ℚ) = 0 := by norm_num [toInt16, u16be]
  rw [h0]
  norm_num [trunc0, goUint16]

lemma batt3_rt (bv1 bv2 : ℕ) (h1 : bv1 < 256) (h2 : bv2 < 256) :
    (match (if u16be bv1 bv2 = 0 then none
        else some ((u16be bv1 bv2 : ℕ) : ℤ)) with
      | none => 0 | some v => goUint16 v) = u16be bv1 bv2 := by
  split_ifs with h
  · exact h.symm
  · show goUint16 ((u16be bv1 bv2 : ℕ) : ℤ) = u16be bv1 bv2
    rw [goUint16, u16be] at *
    omega

lemma roundtrip3_bytes (hu pr1 pr2 bv1 bv2 : ℕ)
    (hh : hu < 256) (hp1 : pr1 < 256) (hp2 : pr2 < 256)
    (hb1 : bv1 < 256) (hb2 : bv2 < 256) :
    EncodeFormat3
      ⟨none,
        (if hu = 0 then none else some ((hu : ℚ) * (1/2))),
        (if u16be pr1 pr2 = 0 then none
          else some (((u16be pr1 pr2 : ℕ) : ℤ) + 50000)),
        some ((toInt16 (u16be 0 0) : ℚ) / 1000),
        some ((toInt16 (u16be 0 0) : ℚ) / 1000),
        some ((toInt16 (u16be 0 0) : ℚ) / 1000),
        (if u16be bv1 bv2 = 0 then none
          else some ((u16be bv1 bv2 : ℕ) : ℤ))⟩
      = frame3S hu pr1 pr2 bv1 bv2 := by
  simp only [EncodeFormat3, encAcc3]
  rw [hum3_rt hu hh, press3_rt pr1 pr2 hp1 hp2, batt3_rt bv1 bv2 hb1 hb2,
    byteHi_u16be pr1 pr2 hp1 hp2, byteLo_u16be pr1 pr2 hp1 hp2,
    byteHi_u16be bv1 bv2 hb1 hb2, byteLo_u16be bv1 bv2 hb1 hb2]
  have h0 : goUint16 (trunc0 ((toInt16 (u16be 0 0) : ℚ) / 1000 * 1000)) = 0 := by
    have : (toInt16 (u16be 0 0) : ℚ) = 0 := by norm_num [toInt16, u16be]
    rw [this]
    norm_num [trunc0, goUint16]
  rw [h0]
  rfl

/-- The reading `DecodeFormat5` produces on `frame5S` (definitional). -/
def decoded5S (p1 p2 w1 w2 mv s1 s2 m1 m2 m3 m4 m5 m6 : ℕ) : Format5Data :=
  ⟨none, none,
    (if u16be p1 p2 = 65535 then none
      else some (((u16be p1 p2 : ℕ) : ℤ) + 50000)),
    none, none, none,
    (if u16be w1 w2 / 32 = 2047 then none
      else some (((u16be w1 w2 / 32 : ℕ) : ℤ) + 1600)),
    (if u16be w1 w2 % 32 = 31 then none
      else some (((u16be w1 w2 % 32 : ℕ) : ℤ) * 2 - 40)),
    (if mv = 255 then none else some mv),
    (if u16be s1 s2 = 65535 then none else some (u16be s1 s2)),
    (if [m1, m2, m3, m4, m5, m6] = List.replicate 6 255 then none
      else some [m1, m2, m3, m4, m5, m6])⟩

/-- The reading `DecodeFormat3` produces on `frame3S` (definitional). -/
def decoded3S (hu pr1 pr2 bv1 bv2 : ℕ) : Format3Data :=
  ⟨none,
    (if hu = 0 then none else some ((hu : ℚ) * (1/2))),
    (if u16be pr1 pr2 = 0 then none
      else some (((u16be pr1 pr2 : ℕ) : ℤ) + 50000)),
    some ((toInt16 (u16be 0 0) : ℚ) / 1000),
    some ((toInt16 (u16be 0 0) : ℚ) / 1000),
    some ((toInt16 (u16be 0 0) : ℚ) / 1000),
    (if u16be bv1 bv2 = 0 then none
      else some ((u16be bv1 bv2 : ℕ) : ℤ))⟩

/-- The Format 3 frame `03 00 80 00 …`: sign-magnitude negative-zero
temperature (sign bit set, magnitude and fraction zero). -/
def negZeroFrame3 : List ℕ := [3, 0, 128, 0, 0, 0, 0, 0, 0, 0, 0, 0, 0, 0]

/-- What `DecodeFormat3` yields on `negZeroFrame3`: temperature present
with value 0. -/
def decodedNegZero : Format3Data :=
  ⟨some 0, none, none, some 0, some 0, some 0, none⟩

/-- Counterexample to C1 as stated: the well-formed (length-14, tag-3)
frame `03 00 80 00 00…` decodes to a present temperature of 0 °C (the
sign-magnitude negative-zero pattern is not the sentinel), but re-encoding
writes temperature bytes `00 00`, so `encode(decode(frame))` is not the
original raw frame, and the second decode returns an absent temperature,
so `decode(encode(decode(frame))) ≠ decode(frame)`. -/
theorem claim1_counterexample :
    DecodeFormat3 negZeroFrame3 = .ok decodedNegZero ∧
    EncodeFormat3 decodedNegZero ≠ negZeroFrame3 ∧
    DecodeFormat3 (EncodeFormat3 decodedNegZero) ≠ .ok decodedNegZero := by
  have henc : EncodeFormat3 decodedNegZero
      = [3, 0, 0, 0, 0, 0, 0, 0, 0, 0, 0, 0, 0, 0] := by
    norm_num [EncodeFormat3, decodedNegZero, encHumByte, encTemp3, encPress0,
      encAcc3, trunc0, roundNN, goUint8, goUint16, byteHi, byteLo]
  have hdec : DecodeFormat3 negZeroFrame3 = .ok decodedNegZero := by
    rw [DecodeFormat3, if_neg (by norm_num [negZeroFrame3]),
      if_neg (by norm_num [negZeroFrame3])]
    norm_num [negZeroFrame3, decodedNegZero, int8val, u16be, toInt16]
  refine ⟨hdec, ?_, ?_⟩
  · rw [henc, negZeroFrame3]
    decide
  · rw [henc]
    intro hcontra
    have h2 : DecodeFormat3 [3, 0, 0, 0, 0, 0, 0, 0, 0, 0, 0, 0, 0, 0]
        = .ok (decoded3S 0 0 0 0 0) := rfl
    rw [h2] at hcontra
    injection hcontra with h3
    have h4 := congrArg Format3Data.temperature h3
    simp [decoded3S, decodedNegZero] at h4

lemma decode5S_eq (p1 p2 w1 w2 mv s1 s2 m1 m2 m3 m4 m5 m6 : ℕ) :
    DecodeFormat5 (frame5S p1 p2 w1 w2 mv s1 s2 m1 m2 m3 m4 m5 m6)
      = .ok (decoded5S p1 p2 w1 w2 mv s1 s2 m1 m2 m3 m4 m5 m6) := by
  have hlen : (frame5S p1 p2 w1 w2 mv s1 s2 m1 m2 m3 m4 m5 m6).length = 24 := rfl
  have g0 : (frame5S p1 p2 w1 w2 mv s1 s2 m1 m2 m3 m4 m5 m6).getD 0 0 = 5 := rfl
  rw [DecodeFormat5, if_neg (by rw [hlen]; omega), if_neg (by rw [g0]; omega)]
  have g1 : (frame5S p1 p2 w1 w2 mv s1 s2 m1 m2 m3 m4 m5 m6).getD 1 0 = 128 := rfl
  have g2 : (frame5S p1 p2 w1 w2 mv s1 s2 m1 m2 m3 m4 m5 m6).getD 2 0 = 0 := rfl
  have g3 : (frame5S p1 p2 w1 w2 mv s1 s2 m1 m2 m3 m4 m5 m6).getD 3 0 = 255 := rfl
  have g4 : (frame5S p1 p2 w1 w2 mv s1 s2 m1 m2 m3 m4 m5 m6).getD 4 0 = 255 := rfl
  have g5 : (frame5S p1 p2 w1 w2 mv s1 s2 m1 m2 m3 m4 m5 m6).getD 5 0 = p1 := rfl
  have g6 : (frame5S p1 p2 w1 w2 mv s1 s2 m1 m2 m3 m4 m5 m6).getD 6 0 = p2 := rfl
  have g7 : (frame5S p1 p2 w1 w2 mv s1 s2 m1 m2 m3 m4 m5 m6).getD 7 0 = 128 := rfl
  have g8 : (frame5S p1 p2 w1 w2 mv s1 s2 m1 m2 m3 m4 m5 m6).getD 8 0 = 0 := rfl
  have g9 : (frame5S p1 p2 w1 w2 mv s1 s2 m1 m2 m3 m4 m5 m6).getD 9 0 = 128 := rfl
  have g10 : (frame5S p1 p2 w1 w2 mv s1 s2 m1 m2 m3 m4 m5 m6).getD 10 0 = 0 := rfl
  have g11 : (frame5S p1 p2 w1 w2 mv s1 s2 m1 m2 m3 m4 m5 m6).getD 11 0 = 128 := rfl
  have g12 : (frame5S p1 p2 w1 w2 mv s1 s2 m1 m2 m3 m4 m5 m6).getD 12 0 = 0 := rfl
  have g13 : (frame5S p1 p2 w1 w2 mv s1 s2 m1 m2 m3 m4 m5 m6).getD 13 0 = w1 := rfl
  have g14 : (frame5S p1 p2 w1 w2 mv s1 s2 m1 m2 m3 m4 m5 m6).getD 14 0 = w2 := rfl
  have g15 : (frame5S p1 p2 w1 w2 mv s1 s2 m1 m2 m3 m4 m5 m6).getD 15 0 = mv := rfl
  have g16 : (frame5S p1 p2 w1 w2 mv s1 s2 m1 m2 m3 m4 m5 m6).getD 16 0 = s1 := rfl
  have g17 : (frame5S p1 p2 w1 w2 mv s1 s2 m1 m2 m3 m4 m5 m6).getD 17 0 = s2 := rfl
  have g18 : (frame5S p1 p2 w1 w2 mv s1 s2 m1 m2 m3 m4 m5 m6).getD 18 0 = m1 := rfl
  have g19 : (frame5S p1 p2 w1 w2 mv s1 s2 m1 m2 m3 m4 m5 m6).getD 19 0 = m2 := rfl
  have g20 : (frame5S p1 p2 w1 w2 mv s1 s2 m1 m2 m3 m4 m5 m6).getD 20 0 = m3 := rfl
  have g21 : (frame5S p1 p2 w1 w2 mv s1 s2 m1 m2 m3 m4 m5 m6).getD 21 0 = m4 := rfl
  have g22 : (frame5S p1 p2 w1 w2 mv s1 s2 m1 m2 m3 m4 m5 m6).getD 22 0 = m5 := rfl
  have g23 : (frame5S p1 p2 w1 w2 mv s1 s2 m1 m2 m3 m4 m5 m6).getD 23 0 = m6 := rfl
  simp only [g1, g2, g3, g4, g5, g6, g7, g8, g9, g10, g11, g12, g13, g14,
    g15, g16, g17, g18, g19, g20, g21, g22, g23]
  norm_num [decoded5S, u16be, toInt16]

lemma decode3S_eq (hu pr1 pr2 bv1 bv2 : ℕ) :
    DecodeFormat3 (frame3S hu pr1 pr2 bv1 bv2)
      = .ok (decoded3S hu pr1 pr2 bv1 bv2) := by
  have hlen : (frame3S hu pr1 pr2 bv1 bv2).length = 14 := rfl
  have g0 : (frame3S hu pr1 pr2 bv1 bv2).getD 0 0 = 3 := rfl
  rw [DecodeFormat3, if_neg (by rw [hlen]; omega), if_neg (by rw [g0]; omega)]
  have q1 : (frame3S hu pr1 pr2 bv1 bv2).getD 1 0 = hu := rfl
  have q2 : (frame3S hu pr1 pr2 bv1 bv2).getD 2 0 = 0 := rfl
  have q3 : (frame3S hu pr1 pr2 bv1 bv2).getD 3 0 = 0 := rfl
  have q4 : (frame3S hu pr1 pr2 bv1 bv2).getD 4 0 = pr1 := rfl
  have q5 : (frame3S hu pr1 pr2 bv1 bv2).getD 5 0 = pr2 := rfl
  have q6 : (frame3S hu pr1 pr2 bv1 bv2).getD 6 0 = 0 := rfl
  have q7 : (frame3S hu pr1 pr2 bv1 bv2).getD 7 0 = 0 := rfl
  have q8 : (frame3S hu pr1 pr2 bv1 bv2).getD 8 0 = 0 := rfl
  have q9 : (frame3S hu pr1 pr2 bv1 bv2).getD 9 0 = 0 := rfl
  have q10 : (frame3S hu pr1 pr2 bv1 bv2).getD 10 0 = 0 := rfl
  have q11 : (frame3S hu pr1 pr2 bv1 bv2).getD 11 0 = 0 := rfl
  have q12 : (frame3S hu pr1 pr2 bv1 bv2).getD 12 0 = bv1 := rfl
  have q13 : (frame3S hu pr1 pr2 bv1 bv2).getD 13 0 = bv2 := rfl
  simp only [q1, q2, q3, q4, q5, q6, q7, q8, q9, q10, q11, q12, q13]
  norm_num [decoded3S, u16be, toInt16, int8val]

/-- Claim C1 as amended: byte-exact `encode(decode(frame)) = frame` and the
idempotence `decode(encode(decode(frame))) = decode(frame)` hold on the
sub-domain of well-formed frames where the implementation's float64
truncation is exact: every Format 5 frame whose temperature, humidity and
acceleration fields are at their sentinels (all other fields arbitrary),
and every Format 3 frame whose temperature bytes are the `00 00` sentinel
and whose acceleration bytes are zero.  They do not hold for every
well-formed frame: the Format 3 negative-zero temperature frame
`03 00 80 00 …` breaks both, and IEEE float64 truncation also breaks
byte-exactness for some non-sentinel raw values (e.g. Format 5 humidity
raw 29 re-encodes as raw 28). -/
theorem claim1_amended :
    (∀ p1 p2 w1 w2 mv s1 s2 m1 m2 m3 m4 m5 m6 : ℕ,
      p1 < 256 → p2 < 256 → w1 < 256 → w2 < 256 → mv < 256 → s1 < 256 →
      s2 < 256 → m1 < 256 → m2 < 256 → m3 < 256 → m4 < 256 → m5 < 256 →
      m6 < 256 →
      Except.map EncodeFormat5
          (DecodeFormat5 (frame5S p1 p2 w1 w2 mv s1 s2 m1 m2 m3 m4 m5 m6))
        = .ok (frame5S p1 p2 w1 w2 mv s1 s2 m1 m2 m3 m4 m5 m6) ∧
      (DecodeFormat5 (frame5S p1 p2 w1 w2 mv s1 s2 m1 m2 m3 m4 m5 m6)).bind
          (fun r => DecodeFormat5 (EncodeFormat5 r))
        = DecodeFormat5 (frame5S p1 p2 w1 w2 mv s1 s2 m1 m2 m3 m4 m5 m6)) ∧
    (∀ hu pr1 pr2 bv1 bv2 : ℕ,
      hu < 256 → pr1 < 256 → pr2 < 256 → bv1 < 256 → bv2 < 256 →
      Except.map EncodeFormat3 (DecodeFormat3 (frame3S hu pr1 pr2 bv1 bv2))
        = .ok (frame3S hu pr1 pr2 bv1 bv2) ∧
      (DecodeFormat3 (frame3S hu pr1 pr2 bv1 bv2)).bind
          (fun r => DecodeFormat3 (EncodeFormat3 r))
        = DecodeFormat3 (frame3S hu pr1 pr2 bv1 bv2)) := by
  constructor
  · intro p1 p2 w1 w2 mv s1 s2 m1 m2 m3 m4 m5 m6 hp1 hp2 hw1 hw2 hmv hs1
      hs2 h1 h2 h3 h4 h5 h6
    have hdec := decode5S_eq p1 p2 w1 w2 mv s1 s2 m1 m2 m3 m4 m5 m6
    have henc : EncodeFormat5 (decoded5S p1 p2 w1 w2 mv s1 s2 m1 m2 m3 m4 m5 m6)
        = frame5S p1 p2 w1 w2 mv s1 s2 m1 m2 m3 m4 m5 m6 :=
      roundtrip5_bytes p1 p2 w1 w2 mv s1 s2 m1 m2 m3 m4 m5 m6
        hp1 hp2 hw1 hw2 hs1 hs2
    refine ⟨?_, ?_⟩
    · rw [hdec]
      exact congrArg Except.ok henc
    · rw [hdec]
      show DecodeFormat5
          (EncodeFormat5 (decoded5S p1 p2 w1 w2 mv s1 s2 m1 m2 m3 m4 m5 m6))
        = .ok (decoded5S p1 p2 w1 w2 mv s1 s2 m1 m2 m3 m4 m5 m6)
      rw [henc]
      exact hdec
  · intro hu pr1 pr2 bv1 bv2 hh hp1 hp2 hb1 hb2
    have hdec := decode3S_eq hu pr1 pr2 bv1 bv2
    have henc : EncodeFormat3 (decoded3S hu pr1 pr2 bv1 bv2)
        = frame3S hu pr1 pr2 bv1 bv2 :=
      roundtrip3_bytes hu pr1 pr2 bv1 bv2 hh hp1 hp2 hb1 hb2
    refine ⟨?_, ?_⟩
    · rw [hdec]
      exact congrArg Except.ok henc
    · rw [hdec]
      show DecodeFormat3 (EncodeFormat3 (decoded3S hu pr1 pr2 bv1 bv2))
        = .ok (decoded3S hu pr1 pr2 bv1 bv2)
      rw [henc]
      exact hdec

/-- Witness for C1 (amended): the all-sentinel Format 5 frame and the
official Format 3 vector's humidity/pressure/battery bytes round-trip
byte-exactly. -/
theorem claim1_witness :
    Except.map EncodeFormat5
        (DecodeFormat5 (frame5S 255 255 255 255 255 255 255 255 255 255 255 255 255))
      = .ok (frame5S 255 255 255 255 255 255 255 255 255 255 255 255 255) ∧
    Except.map EncodeFormat3 (DecodeFormat3 (frame3S 41 206 30 11 83))
      = .ok (frame3S 41 206 30 11 83) :=
  ⟨(claim1_amended.1 255 255 255 255 255 255 255 255 255 255 255 255 255
      (by decide) (by decide) (by decide) (by decide) (by decide) (by decide)
      (by decide) (by decide) (by decide) (by decide) (by decide) (by decide)
      (by decide)).1,
   (claim1_amended.2 41 206 30 11 83
      (by decide) (by decide) (by decide) (by decide) (by decide)).1⟩

end Ruuvi
